import Mathlib

/-!
Verification development for the duckdb-wasm-mvt tile pipeline.

The definitions below are shallow embeddings of the TypeScript source:
JavaScript numbers used only for exact decimal arithmetic are modelled as `ℚ`,
geographic coordinate math (which uses `Math.atan`/`Math.sinh`) is modelled
over `ℝ`, strings as `String`, and the stateful DuckDB / map-layer modules as
explicit state-passing functions.
-/

namespace DuckDBWasmMVT

set_option maxRecDepth 10000

/-! ## Geometry and tile math (src/mvt.ts, src/tile-generation-geojson.ts)

JavaScript `Math.sinh`/`Math.atan` double-precision arithmetic is modelled
over `ℝ`. `1 << zoom` (src/mvt.ts) and `Math.pow(2, z)`
(src/tile-generation-geojson.ts) are both exact for the zoom range 0..22
and are modelled as `2 ^ z`. -/

/-- `TileBounds` (src/mvt.ts lines 5-10). -/
structure TileBounds where
  minLng : ℝ
  minLat : ℝ
  maxLng : ℝ
  maxLat : ℝ

/-- `getTileEnvelope` (src/mvt.ts lines 21-42): slippy-map inverse
projection; the latitude pair is ordered with `Math.min`/`Math.max`. -/
noncomputable def getTileEnvelope (zoom x y : ℕ) : TileBounds :=
  let n : ℝ := 2 ^ zoom
  let invN : ℝ := 1 / n
  let west : ℝ := x * invN * 360 - 180
  let east : ℝ := (x + 1) * invN * 360 - 180
  let y1 : ℝ := 1 - 2 * y * invN
  let y2 : ℝ := 1 - 2 * (y + 1) * invN
  let north : ℝ := Real.arctan (Real.sinh (Real.pi * y1)) * (180 / Real.pi)
  let south : ℝ := Real.arctan (Real.sinh (Real.pi * y2)) * (180 / Real.pi)
  ⟨west, min north south, east, max north south⟩

/-- `getTileEnvelope` (src/tile-generation-geojson.ts lines 157-174): same
math, latitudes computed directly from `y + 1` (south) and `y` (north). -/
noncomputable def getTileEnvelopeGeoJSON (z x y : ℕ) : TileBounds :=
  let n : ℝ := 2 ^ z
  let minLng : ℝ := (x / n) * 360 - 180
  let maxLng : ℝ := ((x + 1) / n) * 360 - 180
  let minLat : ℝ := Real.arctan (Real.sinh (Real.pi * (1 - 2 * (y + 1) / n))) * 180 / Real.pi
  let maxLat : ℝ := Real.arctan (Real.sinh (Real.pi * (1 - 2 * y / n))) * 180 / Real.pi
  ⟨minLng, minLat, maxLng, maxLat⟩

/-- The well-formedness asserted by the spec for a tile envelope: ordered
bounds, longitudes within [-180, 180], latitudes within (-85.06, 85.06). -/
def boundsWellFormed (b : TileBounds) : Prop :=
  b.minLng < b.maxLng ∧ b.minLat < b.maxLat ∧
  -180 ≤ b.minLng ∧ b.maxLng ≤ 180 ∧
  -(85.06 : ℝ) < b.minLat ∧ b.maxLat < (85.06 : ℝ)

/-! ## Simplification tolerance (src/mvt.ts and src/tile-generation-geojson.ts)

Two independent implementations exist in the source.

`calculateSimplifyTolerance` embeds the linear implementation of
`src/mvt.ts` (lines 47-60): zero from zoom 15 on, otherwise a linear
interpolation from 0.001 at zoom 0 to 0 at zoom 15, rounded to six decimals
by `Number((m * zoomLevel + b).toFixed(6))`, which we model as rounding to
the nearest multiple of `10⁻⁶`.

`calculateSimplifyToleranceStep` embeds the step implementation shared by
`src/tile-generation-geojson.ts` (lines 179-184) and the native strategy
file: `z <= 5 → 0.01`, `z <= 10 → 0.001`, `z <= 15 → 0.0001`,
otherwise `0.00001`.
-/

/-- `toFixed(6)` followed by `Number(...)`: round to the nearest multiple of 10⁻⁶. -/
def toFixed6 (q : ℚ) : ℚ := (round (q * 1000000) : ℚ) / 1000000

/-- Linear tolerance of `src/mvt.ts` `calculateSimplifyTolerance`. -/
def calculateSimplifyTolerance (zoomLevel : ℕ) : ℚ :=
  if 15 ≤ zoomLevel then 0
  else
    -- maxSimplify = 0.001, minZoom = 0, maxZoom = 15
    -- m = (0 - maxSimplify) / (maxZoom - minZoom), b = maxSimplify
    toFixed6 ((0 - 1/1000) / (15 - 0) * zoomLevel + 1/1000)

/-- Step tolerance of `src/tile-generation-geojson.ts` / the native strategy. -/
def calculateSimplifyToleranceStep (z : ℕ) : ℚ :=
  if z ≤ 5 then 1/100
  else if z ≤ 10 then 1/1000
  else if z ≤ 15 then 1/10000
  else 1/100000

/-! ## Performance tracker (src/performance-tracker.ts) -/

/-- One record of `TileMetrics` (src/performance-tracker.ts lines 1-9). -/
structure TileMetrics where
  tileId : String
  fetchTime : ℚ
  convertTime : ℚ
  totalTime : ℚ
  features : ℤ
  tileSize : ℕ
  timestamp : ℤ
deriving DecidableEq

/-- `maxMetrics = 100`: keep last 100 tile metrics. -/
def maxMetrics : ℕ := 100

/-- `addMetric` (src/performance-tracker.ts lines 15-24): push, then if the
list length exceeds `maxMetrics` drop the oldest entry (`shift()`).
The trailing `updateUI()` call only touches the DOM and is not modelled. -/
def addMetric (metrics : List TileMetrics) (m : TileMetrics) : List TileMetrics :=
  let pushed := metrics ++ [m]
  if maxMetrics < pushed.length then pushed.tail else pushed

/-- Run a sequence of `addMetric` calls starting from the empty collector. -/
def runTracker (inserts : List TileMetrics) : List TileMetrics :=
  inserts.foldl addMetric []

/-- Result record of `getAverages`. -/
structure Averages where
  avgTotal : ℚ
  avgFetch : ℚ
  avgConvert : ℚ
  totalTiles : ℕ
deriving DecidableEq

/-- `getAverages` (src/performance-tracker.ts lines 26-51): zeros when the
collector is empty, otherwise the `reduce`-computed sums divided by the
stored count. -/
def getAverages (metrics : List TileMetrics) : Averages :=
  if metrics.length = 0 then ⟨0, 0, 0, 0⟩
  else
    { avgTotal := (metrics.map TileMetrics.totalTime).sum / metrics.length
      avgFetch := (metrics.map TileMetrics.fetchTime).sum / metrics.length
      avgConvert := (metrics.map TileMetrics.convertTime).sum / metrics.length
      totalTiles := metrics.length }

/-! ## Spatial index manager (src/map-layers.ts)

`executeSql` effects are modelled by an explicit database state: the rows of
`duckdb_indexes()` as a list of (table_name, index_name) pairs, plus logs of
the index-creation and index-drop commands issued. SQL calls are modelled
as succeeding; the source's `catch` branches (which log and return
null/undefined) only matter when the engine itself fails. -/

/-- A row of `duckdb_indexes()`. -/
structure DuckDBIndex where
  table : String
  name : String
deriving DecidableEq

/-- The DuckDB-visible state touched by the spatial index manager. -/
structure DBState where
  indexes : List DuckDBIndex
  createLog : List String
  dropLog : List String
deriving DecidableEq

/-- The deterministic index name `idx_<table>_<column>`
(src/map-layers.ts line 104). -/
def indexNameFor (tableName geometryColumn : String) : String :=
  "idx_" ++ tableName ++ "_" ++ geometryColumn

/-- `createSpatialIndex` (src/map-layers.ts lines 95-129). `enabled` is the
module-global `spatialIndexEnabled` flag the function reads on entry. The
existence check is the `duckdb_indexes()` query filtered on table and index
name; if a row exists the name is returned unchanged, otherwise a
`CREATE INDEX` is issued (appended to `createLog`). -/
def createSpatialIndex (enabled : Bool) (tableName geometryColumn : String)
    (db : DBState) : Option String × DBState :=
  if enabled = false then (none, db)
  else if 0 < (db.indexes.filter
      (fun i => i.table = tableName
        ∧ i.name = indexNameFor tableName geometryColumn)).length then
    (some (indexNameFor tableName geometryColumn), db)
  else
    (some (indexNameFor tableName geometryColumn),
      { db with
        indexes := db.indexes
          ++ [⟨tableName, indexNameFor tableName geometryColumn⟩]
        createLog := db.createLog
          ++ [indexNameFor tableName geometryColumn] })

/-- `dropSpatialIndex` (src/map-layers.ts lines 134-141):
`DROP INDEX IF EXISTS <name>` removes the index of that name and is logged. -/
def dropSpatialIndex (indexName : String) (db : DBState) : DBState :=
  { db with
    indexes := db.indexes.filter (fun i => ¬ i.name = indexName)
    dropLog := db.dropLog ++ [indexName] }

/-- `LayerInfo` (src/map-layers.ts lines 5-12), restricted to the fields the
index lifecycle touches. -/
structure LayerInfo where
  id : String
  tableName : String
  geometryColumn : String
  indexName : Option String
deriving DecidableEq

/-- Module state of src/map-layers.ts: the `spatialIndexEnabled` flag, the
`activeLayers` map (as a list in iteration order) and the database state. -/
structure MapState where
  spatialIndexEnabled : Bool
  activeLayers : List LayerInfo
  db : DBState
deriving DecidableEq

/-- `toggleSpatialIndexes` (src/map-layers.ts lines 27-49): set the global
flag; when enabling, create an index for every layer that has none attached
and attach it; when disabling, drop every attached index and clear the
reference. Layers are processed sequentially in order. -/
def toggleSpatialIndexes (enabled : Bool) (st : MapState) : MapState :=
  let st1 : MapState := { st with spatialIndexEnabled := enabled }
  if enabled then
    let step := fun (acc : DBState × List LayerInfo) (layer : LayerInfo) =>
      match layer.indexName with
      | some _ => (acc.1, acc.2 ++ [layer])
      | none =>
        match createSpatialIndex st1.spatialIndexEnabled
            layer.tableName layer.geometryColumn acc.1 with
        | (some n, db2) => (db2, acc.2 ++ [{ layer with indexName := some n }])
        | (none, db2) => (db2, acc.2 ++ [layer])
    let res := st1.activeLayers.foldl step (st1.db, [])
    { st1 with db := res.1, activeLayers := res.2 }
  else
    let step := fun (acc : DBState × List LayerInfo) (layer : LayerInfo) =>
      match layer.indexName with
      | some n =>
        (dropSpatialIndex n acc.1, acc.2 ++ [{ layer with indexName := none }])
      | none => (acc.1, acc.2 ++ [layer])
    let res := st1.activeLayers.foldl step (st1.db, [])
    { st1 with db := res.1, activeLayers := res.2 }

/-! ## Tile query construction (src/tile-generation-geojson.ts lines 243-306)

`generateTileQuery` builds the portable-shape SQL text with four `?`
placeholders for the envelope bounds and returns the bounds separately in
`params`. `generateMVTFromGeoJSON` (lines 74-84) then replaces each `?` with
`param.toString()` before executing, so the executed text has the bounds
inlined. The numeric `toString` renderings are abstracted as a list of
strings (`rendered`); a JavaScript number's decimal rendering never contains
a `?` character. -/

/-- `LayerConfig` (src/tile-generation-geojson.ts lines 30-35). -/
structure LayerConfig where
  tableName : String
  geometryColumn : String
  propertyColumns : List String
  schema : Option String
deriving DecidableEq

/-- Double-quoted SQL identifier, as interpolated by the source templates. -/
def quoteIdent (s : String) : String := "\"" ++ s ++ "\""

/-- JavaScript `Array.prototype.join(', ')`. -/
def joinComma (l : List String) : String :=
  match l with
  | [] => ""
  | x :: xs => xs.foldl (fun acc s => acc ++ ", " ++ s) x

/-- The decimal text JavaScript interpolates for `${simplify}`: the step
tolerance takes only the four values 0.01 / 0.001 / 0.0001 / 0.00001, whose
`toString` renderings are fixed. -/
def toleranceLiteral (z : ℕ) : String :=
  if z ≤ 5 then "0.01"
  else if z ≤ 10 then "0.001"
  else if z ≤ 15 then "0.0001"
  else "0.00001"

/-- The `', ' + propertyColumns.map(col => `"col"`).join(', ')` fragment
inside the CTE (empty when there are no property columns). -/
def innerColumnList (propertyColumns : List String) : String :=
  if 0 < propertyColumns.length then
    ", " ++ joinComma (propertyColumns.map quoteIdent)
  else ""

/-- The `columnSelection` fragment: each property column as
`to_json("col")::VARCHAR as "col"`. -/
def columnSelection (propertyColumns : List String) : String :=
  if 0 < propertyColumns.length then
    ", " ++ joinComma (propertyColumns.map
      (fun col => "to_json(" ++ quoteIdent col ++ ")::VARCHAR as " ++ quoteIdent col))
  else ""

/-- `fullTableName`: `"schema"."table"` when a schema is set, else `"table"`. -/
def fullTableNameOf (config : LayerConfig) : String :=
  match config.schema with
  | some s => quoteIdent s ++ "." ++ quoteIdent config.tableName
  | none => quoteIdent config.tableName

/-- The `simplify > 0` branch of `generateTileQuery`
(src/tile-generation-geojson.ts lines 263-282). -/
def tileQueryWithSimplify (config : LayerConfig) (z : ℕ) : String :=
  "\n      WITH filtered AS (\n        SELECT\n          "
    ++ quoteIdent config.geometryColumn ++ " as geom\n          "
    ++ innerColumnList config.propertyColumns
    ++ "\n        FROM " ++ fullTableNameOf config
    ++ "\n        WHERE ST_Intersects(\n          "
    ++ quoteIdent config.geometryColumn
    ++ ",\n          ST_MakeEnvelope(CAST(? AS DOUBLE), CAST(? AS DOUBLE), CAST(? AS DOUBLE), CAST(? AS DOUBLE))\n        )\n      )\n      SELECT\n        ST_AsGeoJSON(\n          ST_SimplifyPreserveTopology(geom, "
    ++ toleranceLiteral z
    ++ ")\n        ) AS geojson\n        "
    ++ columnSelection config.propertyColumns
    ++ "\n      FROM filtered\n    "

/-- The `simplify = 0` branch of `generateTileQuery`
(src/tile-generation-geojson.ts lines 284-301). -/
def tileQueryWithoutSimplify (config : LayerConfig) : String :=
  "\n      WITH filtered AS (\n        SELECT\n          "
    ++ quoteIdent config.geometryColumn ++ " as geom\n          "
    ++ innerColumnList config.propertyColumns
    ++ "\n        FROM " ++ fullTableNameOf config
    ++ "\n        WHERE ST_Intersects(\n          "
    ++ quoteIdent config.geometryColumn
    ++ ",\n          ST_MakeEnvelope(CAST(? AS DOUBLE), CAST(? AS DOUBLE), CAST(? AS DOUBLE), CAST(? AS DOUBLE))\n        )\n      )\n      SELECT\n        ST_AsGeoJSON(geom) AS geojson\n        "
    ++ columnSelection config.propertyColumns
    ++ "\n      FROM filtered\n    "

/-- The query text built by `generateTileQuery`
(src/tile-generation-geojson.ts lines 260-301): a simplification branch is
chosen by `simplify > 0`, and both branches carry the four
`CAST(? AS DOUBLE)` placeholders inside `ST_MakeEnvelope`. -/
def tileQueryTemplate (config : LayerConfig) (z : ℕ) : String :=
  if 0 < calculateSimplifyToleranceStep z then tileQueryWithSimplify config z
  else tileQueryWithoutSimplify config

/-- JavaScript `str.replace('?', repl)`: replace the first `?` character. -/
def replaceFirstQ : List Char → List Char → List Char
  | [], _repl => []
  | c :: rest, repl => if c = '?' then repl ++ rest else c :: replaceFirstQ rest repl

/-- `String.replace('?', repl)` lifted to `String`. -/
def jsReplaceQ (s repl : String) : String := ⟨replaceFirstQ s.data repl.data⟩

/-- The substitution loop of src/tile-generation-geojson.ts lines 77-80 and
src/unnamed/part_000 lines 114-117:
`for (const param of params) finalQuery = finalQuery.replace('?', param.toString())`. -/
def inlineParams (query : String) (rendered : List String) : String :=
  rendered.foldl jsReplaceQ query

/-- The query text actually passed to `conn.query` by
`generateMVTFromGeoJSON`, given the `toString` renderings of the four
envelope bounds. No separate parameter list accompanies the call. -/
def executedTileQuery (config : LayerConfig) (z : ℕ) (rendered : List String) : String :=
  inlineParams (tileQueryTemplate config z) rendered

/-- Number of `?` placeholder characters in a query text. -/
def countQ (s : String) : ℕ := s.data.count '?'

/-- Substring test used to exhibit an inlined bound in the executed query. -/
def listStartsWithChars : List Char → List Char → Bool
  | _, [] => true
  | [], _ :: _ => false
  | a :: restA, b :: restB => a = b && listStartsWithChars restA restB

/-- `sub` occurs contiguously inside `hay`. -/
def containsSubstr : List Char → List Char → Bool
  | [], sub => sub.isEmpty
  | c :: rest, sub => listStartsWithChars (c :: rest) sub || containsSubstr rest sub

/-! ## Protocol adapter (src/unnamed/part_000)

Two registered `duckdb://` protocol handlers exist in the source: the
GeoJSON-only pipeline (lines 192-265, dispatching through `fetchTileData`)
and the dual-strategy pipeline (lines 320-439, dispatching to
`generateMVTNative` or `generateMVTFromGeoJSON`).

External effects are modelled by a `ProtoEnv` record fixing the outcome of
each fallible collaborator call; exceptions are modelled by `Outcome`, and
`try/catch`/`try/finally` blocks by explicit branching that mirrors the
source's control flow. Connection lifecycle is tracked in a `ConnTrace`. -/

/-- Result of a JavaScript async call: a value, or a thrown exception. -/
inductive Outcome (α : Type) where
  | ok (val : α) : Outcome α
  | thrown (msg : String) : Outcome α
deriving DecidableEq

/-- Counts of connections acquired and of `conn.close()` calls issued over
one protocol-handler invocation. -/
structure ConnTrace where
  acquired : ℕ
  closed : ℕ
deriving DecidableEq

/-- The environment a single tile request runs against. `rows` carries one
Boolean per result row of the tile query: `true` when the row's geometry
text parses (`parseGeoJSON` returns non-null). -/
structure ProtoEnv where
  configs : List (String × LayerConfig)
  dbInitialized : Bool
  connectThrows : Bool
  queryFails : Bool
  rows : List Bool
  encodeThrows : Bool
  encodedTile : List ℕ
  nativeMvt : Option (List ℕ)
  useNativeMVT : Bool

/-- `activeConfigs.get(configId)` (a `Map` lookup). -/
def lookupConfig (configs : List (String × LayerConfig)) (id : String) :
    Option LayerConfig :=
  (configs.find? (fun p => p.1 = id)).map Prod.snd

/-- Split a character list on `/` (for the URL regex's `/`-separated groups). -/
def splitSlash : List Char → List (List Char)
  | [] => [[]]
  | c :: rest =>
    match splitSlash rest with
    | [] => [[]]
    | seg :: segs => if c = '/' then [] :: seg :: segs else (c :: seg) :: segs

/-- `sfx` is a suffix of `l`. -/
def listEndsWithChars (l sfx : List Char) : Bool :=
  listStartsWithChars l.reverse sfx.reverse

/-- `parseInt` on an all-digit character list. -/
def digitsToNat (l : List Char) : ℕ :=
  l.foldl (fun n c => 10 * n + (c.toNat - ('0').toNat)) 0

/-- The URL match `/^duckdb:\/\/([^\/]+)\/(\d+)\/(\d+)\/(\d+)\.pbf$/`
(src/unnamed/part_000 lines 197 and 325): scheme prefix, then exactly four
`/`-separated groups — a non-empty layer id, two digit groups, and a digit
group suffixed `.pbf`. -/
def parseTileURL (url : String) : Option (String × ℕ × ℕ × ℕ) :=
  if listStartsWithChars url.data ("duckdb://").data then
    match splitSlash (url.data.drop 9) with
    | [configId, zs, xs, ys] =>
      if ¬ configId.isEmpty
          && (¬ zs.isEmpty && zs.all Char.isDigit)
          && (¬ xs.isEmpty && xs.all Char.isDigit)
          && listEndsWithChars ys (".pbf").data
          && (let yd := ys.take (ys.length - 4)
              ¬ yd.isEmpty && yd.all Char.isDigit) then
        some (⟨configId⟩, digitsToNat zs, digitsToNat xs,
          digitsToNat (ys.take (ys.length - 4)))
      else none
    | _ => none
  else none

/-- `createConnection` (src/unnamed/part_001 lines 67-84): returns `null`
when the database was never initialized; otherwise `db.connect()` may throw
(the `LOAD spatial` failure is caught internally and does not escape). -/
def createConnection (env : ProtoEnv) : Outcome (Option Unit) :=
  if env.dbInitialized = false then .ok none
  else if env.connectThrows then .thrown "connect" else .ok (some ())

/-- `geojsonToVectorTile` (src/mvt.ts lines 65-102): empty features give an
empty payload, the whole conversion is wrapped in `try/catch` returning an
empty payload, and otherwise the vt-pbf bytes are returned. -/
def geojsonToVectorTileRun (env : ProtoEnv) (features : List Bool) : List ℕ :=
  if features.length = 0 then []
  else if env.encodeThrows then []
  else env.encodedTile

/-- `fetchTileData` (src/unnamed/part_000 lines 94-187): acquire a scoped
connection, run the tile query, parse rows into features (skipping rows
whose geometry fails to parse); any exception is caught and yields `[]`;
the `finally` block closes the connection whenever one was acquired. -/
def fetchTileData (env : ProtoEnv) : List Bool × ConnTrace :=
  match createConnection env with
  | .thrown _ => ([], ⟨0, 0⟩)
  | .ok none => ([], ⟨0, 0⟩)
  | .ok (some _) =>
    if env.queryFails then ([], ⟨1, 1⟩)
    else (env.rows.filter (fun b => b), ⟨1, 1⟩)

/-- The GeoJSON-only protocol handler (src/unnamed/part_000 lines 192-265):
parse the URL, look up the layer config, fetch features, convert, record
metrics, and return the payload; every failure branch returns an empty
payload and the outer `try/catch` converts any exception to one as well. -/
def duckdbProtocolHandlerGeoJSON (env : ProtoEnv) (url : String) :
    Outcome (List ℕ) × ConnTrace :=
  match parseTileURL url with
  | none => (.ok [], ⟨0, 0⟩)
  | some (configId, _z, _x, _y) =>
    match lookupConfig env.configs configId with
    | none => (.ok [], ⟨0, 0⟩)
    | some _ =>
      let fd := fetchTileData env
      (.ok (geojsonToVectorTileRun env fd.1), fd.2)

/-- `generateMVTNative` (src/performance-tracker.ts file section, lines
140-194): a failing query is caught and yields an empty payload; an empty
result set or a null `mvt` column yields an empty payload; otherwise the
binary tile is passed through. -/
def generateMVTNativeRun (env : ProtoEnv) : List ℕ :=
  if env.queryFails then []
  else
    match env.nativeMvt with
    | none => []
    | some bytes => bytes

/-- `generateMVTFromGeoJSON` (src/tile-generation-geojson.ts lines 45-148):
a failing query is caught and yields an empty payload; an empty result set
yields an empty payload; otherwise rows are parsed (unparseable geometry
rows skipped) and converted client-side. -/
def generateMVTFromGeoJSONRun (env : ProtoEnv) : List ℕ :=
  if env.queryFails then []
  else if env.rows.length = 0 then []
  else geojsonToVectorTileRun env (env.rows.filter (fun b => b))

/-- The dual-strategy protocol handler (src/unnamed/part_000 lines 320-439):
parse the URL, look up the config, acquire a scoped connection, dispatch on
`useNativeMVT`, and return the payload; the inner `finally` closes the
connection on every path on which it was acquired, and the outer
`try/catch` converts any exception to an empty payload. -/
def duckdbProtocolHandlerDual (env : ProtoEnv) (url : String) :
    Outcome (List ℕ) × ConnTrace :=
  match parseTileURL url with
  | none => (.ok [], ⟨0, 0⟩)
  | some (configId, _z, _x, _y) =>
    match lookupConfig env.configs configId with
    | none => (.ok [], ⟨0, 0⟩)
    | some _ =>
      match createConnection env with
      | .thrown _ => (.ok [], ⟨0, 0⟩)
      | .ok none => (.ok [], ⟨0, 0⟩)
      | .ok (some _) =>
        (.ok (if env.useNativeMVT then generateMVTNativeRun env
          else generateMVTFromGeoJSONRun env), ⟨1, 1⟩)

/-! ## Concrete instances used by counterexamples and witnesses -/

/-- A minimal layer configuration: table `t`, geometry column `geom`. -/
def sampleConfig : LayerConfig := ⟨"t", "geom", [], none⟩

/-- JavaScript `toString()` renderings of the four envelope bounds of tile
(0,0,0): −180, −85.05112877980659, 180, 85.05112877980659. -/
def sampleRendered : List String :=
  ["-180", "-85.05112877980659", "180", "85.05112877980659"]

/-- A metric record with all-zero timings. -/
def sampleMetric : TileMetrics := ⟨"0/0/0", 0, 0, 0, 0, 0, 0⟩

/-- A second metric record with nonzero timings. -/
def sampleMetric2 : TileMetrics := ⟨"[Native] 1/0/0", 3, 5, 10, -1, 64, 7⟩

/-- A layer whose spatial index was created while indexing was enabled, so
its attached name is the deterministic `idx_t_geom`. -/
def sampleLayer : LayerInfo := ⟨"duckdb-layer-0", "t", "geom", some "idx_t_geom"⟩

/-- Database state in which `sampleLayer`'s index exists and its creation
has been logged. -/
def sampleDb : DBState := ⟨[⟨"t", "idx_t_geom"⟩], ["idx_t_geom"], []⟩

/-- Module state with indexing enabled and `sampleLayer` active. -/
def sampleMapState : MapState := ⟨true, [sampleLayer], sampleDb⟩

/-- An environment for protocol-handler witnesses: one registered layer
`a`, database initialized, all collaborator calls succeeding. -/
def sampleEnv : ProtoEnv :=
  { configs := [("a", sampleConfig)]
    dbInitialized := true
    connectThrows := false
    queryFails := false
    rows := [true, false, true]
    encodeThrows := false
    encodedTile := [26, 5]
    nativeMvt := some [26, 7]
    useNativeMVT := true }

/-! ## Helper lemmas -/

/-- The step tolerance is strictly positive at every zoom. -/
lemma step_tol_pos (z : ℕ) : 0 < calculateSimplifyToleranceStep z := by
  unfold calculateSimplifyToleranceStep
  repeat' split
  all_goals norm_num

/-- Because the step tolerance is always positive, `generateTileQuery`
always takes the simplification branch. -/
lemma tileQueryTemplate_eq (config : LayerConfig) (z : ℕ) :
    tileQueryTemplate config z = tileQueryWithSimplify config z :=
  if_pos (step_tol_pos z)

/-- The linear tolerance is zero from zoom 15 on. -/
lemma lin_tol_high (z : ℕ) (h : 15 ≤ z) : calculateSimplifyTolerance z = 0 := by
  unfold calculateSimplifyTolerance
  rw [if_pos h]

/-- One step of monotonicity for the linear tolerance. -/
lemma lin_tol_succ_le (z : ℕ) :
    calculateSimplifyTolerance (z + 1) ≤ calculateSimplifyTolerance z := by
  rcases lt_or_ge z 15 with h | h
  · interval_cases z <;>
      norm_num [calculateSimplifyTolerance, toFixed6, round_eq]
  · rw [lin_tol_high z h, lin_tol_high (z + 1) (by omega)]

/-- One step of monotonicity for the step tolerance. -/
lemma step_tol_succ_le (z : ℕ) :
    calculateSimplifyToleranceStep (z + 1) ≤ calculateSimplifyToleranceStep z := by
  unfold calculateSimplifyToleranceStep
  repeat' split
  all_goals try norm_num
  all_goals omega

/-- `runTracker` evaluated on one more insertion. -/
lemma runTracker_append (ms : List TileMetrics) (m : TileMetrics) :
    runTracker (ms ++ [m]) = addMetric (runTracker ms) m := by
  unfold runTracker
  rw [List.foldl_append]
  rfl

/-- Tail of a nonempty list with a singleton appended. -/
lemma tail_append_singleton {α : Type} (l : List α) (h : l ≠ []) (a : α) :
    (l ++ [a]).tail = l.tail ++ [a] := by
  cases l with
  | nil => exact absurd rfl h
  | cons x xs => simp

/-- `addMetric` with its local `pushed` binding expanded. -/
lemma addMetric_eq (stored : List TileMetrics) (m : TileMetrics) :
    addMetric stored m =
      if maxMetrics < (stored ++ [m]).length then (stored ++ [m]).tail
      else stored ++ [m] := rfl

/-- The collector state after any insertion sequence is the suffix of the
last `maxMetrics` insertions. -/
lemma runTracker_eq_drop (ms : List TileMetrics) :
    runTracker ms = ms.drop (ms.length - maxMetrics) := by
  induction ms using List.reverseRecOn with
  | nil => rfl
  | append_singleton ms m ih =>
    rw [runTracker_append, ih, addMetric_eq]
    simp only [maxMetrics] at *
    have hlapp : (ms ++ [m]).length = ms.length + 1 := by simp
    rcases lt_or_ge ms.length 100 with h | h
    · have h0 : ms.length - 100 = 0 := by omega
      rw [h0, List.drop_zero, if_neg (by rw [hlapp]; omega)]
      have h1 : (ms ++ [m]).length - 100 = 0 := by
        rw [hlapp]
        omega
      rw [h1, List.drop_zero]
    · have hlen : (ms.drop (ms.length - 100)).length = 100 := by
        rw [List.length_drop]
        omega
      have hne : ms.drop (ms.length - 100) ≠ [] := by
        intro hnil
        rw [hnil] at hlen
        simp at hlen
      have hc : (ms.drop (ms.length - 100) ++ [m]).length = 100 + 1 := by
        rw [List.length_append, hlen]
        rfl
      rw [if_pos (by rw [hc]; omega)]
      rw [tail_append_singleton _ hne, List.tail_drop]
      have h2 : (ms ++ [m]).length - 100 = (ms.length - 100) + 1 := by
        rw [hlapp]
        omega
      have hle : ms.length - 100 + 1 ≤ ms.length := by omega
      rw [h2, List.drop_append_of_le_length hle]

/-- Length of the collector state. -/
lemma runTracker_length (ms : List TileMetrics) :
    (runTracker ms).length = min ms.length maxMetrics := by
  rw [runTracker_eq_drop, List.length_drop]
  simp only [maxMetrics]
  omega

/-- `runTracker` of a nonempty insertion list is nonempty. -/
lemma runTracker_length_ne_zero (ms : List TileMetrics) (h : ms ≠ []) :
    (runTracker ms).length ≠ 0 := by
  rw [runTracker_length]
  have : ms.length ≠ 0 := fun h0 => h (List.length_eq_zero.mp h0)
  simp only [maxMetrics]
  omega

/-! ## Claims -/

/-- C5, counterexample: the step implementation of the simplification
tolerance does not reach zero at zoom 15 (it returns 0.0001 there, and
0.00001 at every higher zoom), refuting "Each implementation … reaches zero
at high zoom (z ≥ 15)". -/
theorem C5_counterexample : calculateSimplifyToleranceStep 15 ≠ 0 := by
  norm_num [calculateSimplifyToleranceStep]

/-- C5 (amended): both tolerance implementations are monotonically
non-increasing in zoom and largest at zoom 0; the linear implementation
(src/mvt.ts) reaches zero for every zoom ≥ 15, while the step
implementation (src/tile-generation-geojson.ts and the native strategy)
stays strictly positive at every zoom. -/
theorem C5_tolerance_properties :
    (∀ z : ℕ, calculateSimplifyTolerance (z + 1) ≤ calculateSimplifyTolerance z) ∧
    (∀ z : ℕ, calculateSimplifyTolerance z ≤ calculateSimplifyTolerance 0) ∧
    (∀ z : ℕ, 15 ≤ z → calculateSimplifyTolerance z = 0) ∧
    (∀ z : ℕ,
      calculateSimplifyToleranceStep (z + 1) ≤ calculateSimplifyToleranceStep z) ∧
    (∀ z : ℕ, calculateSimplifyToleranceStep z ≤ calculateSimplifyToleranceStep 0) ∧
    (∀ z : ℕ, 0 < calculateSimplifyToleranceStep z) := by
  refine ⟨lin_tol_succ_le, ?_, lin_tol_high, step_tol_succ_le, ?_, step_tol_pos⟩
  · exact fun z => antitone_nat_of_succ_le lin_tol_succ_le (Nat.zero_le z)
  · exact fun z => antitone_nat_of_succ_le step_tol_succ_le (Nat.zero_le z)

/-- C5 witness: the amended properties applied at concrete zooms. -/
theorem C5_tolerance_properties_witness :
    calculateSimplifyTolerance 3 ≤ calculateSimplifyTolerance 2 ∧
    ((15 : ℕ) ≤ 15 ∧ calculateSimplifyTolerance 15 = 0) ∧
    0 < calculateSimplifyToleranceStep 16 :=
  ⟨C5_tolerance_properties.1 2,
    ⟨le_refl 15, C5_tolerance_properties.2.2.1 15 (le_refl 15)⟩,
    C5_tolerance_properties.2.2.2.2.2 16⟩

/-- C8: starting from the empty collector, after any insertion sequence the
stored metrics are exactly the last `min(n, 100)` records inserted, in
insertion order (the length-`min(n,100)` suffix of the insertion list); in
particular 150 insertions leave exactly the last 100. -/
theorem C8_tracker_bounded_fifo :
    (∀ ms : List TileMetrics,
      runTracker ms = ms.drop (ms.length - maxMetrics) ∧
      (runTracker ms).length = min ms.length maxMetrics) ∧
    (∀ ms : List TileMetrics, ms.length = 150 → runTracker ms = ms.drop 50) := by
  refine ⟨fun ms => ⟨runTracker_eq_drop ms, runTracker_length ms⟩, fun ms h => ?_⟩
  rw [runTracker_eq_drop, h]
  simp only [maxMetrics]

/-- C8 witness: inserting a concrete sequence of 150 records leaves its
last 100 entries. -/
theorem C8_tracker_bounded_fifo_witness :
    (List.replicate 150 sampleMetric).length = 150 ∧
    runTracker (List.replicate 150 sampleMetric)
      = (List.replicate 150 sampleMetric).drop 50 :=
  ⟨by simp, C8_tracker_bounded_fifo.2 (List.replicate 150 sampleMetric) (by simp)⟩

/-- C10: `getAverages` returns all-zero averages and `totalTiles = 0` on an
empty collector; otherwise it returns the arithmetic means of `totalTime`,
`fetchTime` and `convertTime` over exactly the currently stored records
(the last `min(n, 100)` insertions) with `totalTiles` equal to their
count. -/
theorem C10_getAverages_means :
    ∀ ms : List TileMetrics,
      (ms = [] → getAverages (runTracker ms) = ⟨0, 0, 0, 0⟩) ∧
      (getAverages (runTracker ms)).totalTiles = min ms.length maxMetrics ∧
      (ms ≠ [] →
        (getAverages (runTracker ms)).avgTotal
          = ((ms.drop (ms.length - maxMetrics)).map TileMetrics.totalTime).sum
            / (min ms.length maxMetrics : ℚ) ∧
        (getAverages (runTracker ms)).avgFetch
          = ((ms.drop (ms.length - maxMetrics)).map TileMetrics.fetchTime).sum
            / (min ms.length maxMetrics : ℚ) ∧
        (getAverages (runTracker ms)).avgConvert
          = ((ms.drop (ms.length - maxMetrics)).map TileMetrics.convertTime).sum
            / (min ms.length maxMetrics : ℚ)) := by
  intro ms
  refine ⟨fun h => by subst h; rfl, ?_, fun h => ?_⟩
  · rcases eq_or_ne ms [] with h | h
    · subst h
      rfl
    · have hne := runTracker_length_ne_zero ms h
      unfold getAverages
      rw [if_neg hne, runTracker_length]
  · have hne := runTracker_length_ne_zero ms h
    rw [runTracker_eq_drop] at hne ⊢
    unfold getAverages
    rw [if_neg hne]
    have hlen : (List.drop (ms.length - maxMetrics) ms).length
        = min ms.length maxMetrics := by
      rw [List.length_drop]
      simp only [maxMetrics]
      omega
    rw [hlen, Nat.cast_min]
    exact ⟨rfl, rfl, rfl⟩

/-- C10 witness: the means over a concrete two-record collector. -/
theorem C10_getAverages_means_witness :
    (getAverages (runTracker [sampleMetric, sampleMetric2])).totalTiles
      = min ([sampleMetric, sampleMetric2].length) maxMetrics ∧
    (getAverages (runTracker [sampleMetric, sampleMetric2])).avgTotal
      = (([sampleMetric, sampleMetric2].drop
            ([sampleMetric, sampleMetric2].length - maxMetrics)).map
          TileMetrics.totalTime).sum
        / (min ([sampleMetric, sampleMetric2].length) maxMetrics : ℚ) :=
  ⟨(C10_getAverages_means [sampleMetric, sampleMetric2]).2.1,
    ((C10_getAverages_means [sampleMetric, sampleMetric2]).2.2 (by simp)).1⟩

/-- After dropping every index named `idx`, the existence check for
`(t, idx)` finds nothing. -/
lemma filter_dropped_empty (t idx : String) (il : List DuckDBIndex) :
    ((il.filter (fun i => ¬ i.name = idx)).filter
      (fun i => i.table = t ∧ i.name = idx)) = [] := by
  induction il with
  | nil => rfl
  | cons a as ih =>
    by_cases ha : a.name = idx
    · simp [List.filter_cons, ha, ih]
    · simp [List.filter_cons, ha, ih]

/-- `createSpatialIndex` when the existence check finds a row. -/
lemma createSpatialIndex_found (t c : String) (db : DBState)
    (hex : 0 < (db.indexes.filter
      (fun i => i.table = t ∧ i.name = indexNameFor t c)).length) :
    createSpatialIndex true t c db = (some (indexNameFor t c), db) := by
  unfold createSpatialIndex
  rw [if_neg (by simp), if_pos hex]

/-- `createSpatialIndex` when the existence check finds nothing. -/
lemma createSpatialIndex_create (t c : String) (db : DBState)
    (hex : ¬ 0 < (db.indexes.filter
      (fun i => i.table = t ∧ i.name = indexNameFor t c)).length) :
    createSpatialIndex true t c db
      = (some (indexNameFor t c),
          { db with
            indexes := db.indexes ++ [⟨t, indexNameFor t c⟩]
            createLog := db.createLog ++ [indexNameFor t c] }) := by
  unfold createSpatialIndex
  rw [if_neg (by simp), if_neg hex]

/-- After appending the `(t, idx_t_c)` row, the existence check succeeds. -/
lemma exists_after_create (t c : String) (il : List DuckDBIndex) :
    0 < ((il ++ [(⟨t, indexNameFor t c⟩ : DuckDBIndex)]).filter
      (fun i => i.table = t ∧ i.name = indexNameFor t c)).length := by
  rw [List.filter_append]
  simp

/-- C9: `createSpatialIndex` returns `none` and issues no command when
indexing is globally disabled; when enabled, it returns the deterministic
name `idx_<table>_<column>`, and a second call for the same table and
column returns the same identifier while issuing no further creation
command. -/
theorem C9_ensureIndex_idempotent :
    ∀ (t c : String) (db : DBState),
      createSpatialIndex false t c db = (none, db) ∧
      (createSpatialIndex true t c db).1 = some (indexNameFor t c) ∧
      (createSpatialIndex true t c (createSpatialIndex true t c db).2).1
        = (createSpatialIndex true t c db).1 ∧
      (createSpatialIndex true t c (createSpatialIndex true t c db).2).2.createLog
        = (createSpatialIndex true t c db).2.createLog := by
  intro t c db
  refine ⟨rfl, ?_⟩
  by_cases hex : 0 < (db.indexes.filter
      (fun i => i.table = t ∧ i.name = indexNameFor t c)).length
  · rw [createSpatialIndex_found t c db hex]
    rw [show ((some (indexNameFor t c), db) : Option String × DBState).2 = db
      from rfl]
    rw [createSpatialIndex_found t c db hex]
    exact ⟨rfl, rfl, rfl⟩
  · rw [createSpatialIndex_create t c db hex]
    have h2 := createSpatialIndex_found t c
      { db with
        indexes := db.indexes ++ [⟨t, indexNameFor t c⟩]
        createLog := db.createLog ++ [indexNameFor t c] }
      (exists_after_create t c db.indexes)
    exact ⟨rfl, by rw [h2], by rw [h2]⟩

/-- C2, counterexample: starting from a state whose single layer carries an
index created while indexing was on, toggling indexes off and then on does
not satisfy "index name preserved and no second creation command": a second
`CREATE INDEX` is logged (the name, however, is restored). -/
theorem C2_counterexample :
    ¬ (((toggleSpatialIndexes true
          (toggleSpatialIndexes false sampleMapState)).activeLayers.map
            LayerInfo.indexName
          = sampleMapState.activeLayers.map LayerInfo.indexName) ∧
        (toggleSpatialIndexes true
          (toggleSpatialIndexes false sampleMapState)).db.createLog
          = sampleMapState.db.createLog) := by
  decide

/-- C2 (amended): toggling off then on restores the layer's index name to
the same deterministic value, but because disabling dropped the index, the
re-enable issues exactly one new index-creation command (the intermediate
state has the reference cleared). -/
theorem C2_toggle_off_on :
    ∀ (l : LayerInfo) (db : DBState),
      l.indexName = some (indexNameFor l.tableName l.geometryColumn) →
      ((toggleSpatialIndexes true
          (toggleSpatialIndexes false ⟨true, [l], db⟩)).activeLayers.map
            LayerInfo.indexName = [l.indexName] ∧
        (toggleSpatialIndexes false ⟨true, [l], db⟩).activeLayers.map
          LayerInfo.indexName = [none] ∧
        (toggleSpatialIndexes true
          (toggleSpatialIndexes false ⟨true, [l], db⟩)).db.createLog
          = db.createLog ++ [indexNameFor l.tableName l.geometryColumn]) := by
  intro l db h
  have h1 : toggleSpatialIndexes false ⟨true, [l], db⟩
      = ⟨false, [{ l with indexName := none }],
          dropSpatialIndex (indexNameFor l.tableName l.geometryColumn) db⟩ := by
    simp [toggleSpatialIndexes, h]
  have hempty : (((dropSpatialIndex
        (indexNameFor l.tableName l.geometryColumn) db).indexes).filter
      (fun i => i.table = l.tableName
        ∧ i.name = indexNameFor l.tableName l.geometryColumn)) = [] :=
    filter_dropped_empty l.tableName
      (indexNameFor l.tableName l.geometryColumn) db.indexes
  have hcreate := createSpatialIndex_create l.tableName l.geometryColumn
    (dropSpatialIndex (indexNameFor l.tableName l.geometryColumn) db)
    (by rw [hempty]; simp)
  have h2 : toggleSpatialIndexes true
      ⟨false, [{ l with indexName := none }],
        dropSpatialIndex (indexNameFor l.tableName l.geometryColumn) db⟩
      = MapState.mk true
          [{ l with indexName := some (indexNameFor l.tableName l.geometryColumn) }]
          (DBState.mk
            ((dropSpatialIndex (indexNameFor l.tableName l.geometryColumn) db).indexes ++ [⟨l.tableName, indexNameFor l.tableName l.geometryColumn⟩])
            ((dropSpatialIndex (indexNameFor l.tableName l.geometryColumn) db).createLog ++ [indexNameFor l.tableName l.geometryColumn])
            ((dropSpatialIndex (indexNameFor l.tableName l.geometryColumn) db).dropLog)) := by
    simp only [toggleSpatialIndexes, List.foldl_cons, List.foldl_nil]
    simp only [if_true]
    rw [hcreate]
    rfl
  rw [h1, h2, h]
  refine ⟨by simp, by simp, ?_⟩
  simp [dropSpatialIndex]

/-- C2 witness: the amended behaviour at the concrete sample state. -/
theorem C2_toggle_off_on_witness :
    sampleLayer.indexName
      = some (indexNameFor sampleLayer.tableName sampleLayer.geometryColumn) ∧
    (toggleSpatialIndexes true
        (toggleSpatialIndexes false ⟨true, [sampleLayer], sampleDb⟩)).db.createLog
      = sampleDb.createLog
        ++ [indexNameFor sampleLayer.tableName sampleLayer.geometryColumn] :=
  ⟨by decide,
    (C2_toggle_off_on sampleLayer sampleDb (by decide)).2.2⟩

/-- `countQ` distributes over string append. -/
lemma countQ_append (a b : String) : countQ (a ++ b) = countQ a + countQ b := by
  cases a with
  | mk da =>
    cases b with
    | mk db =>
      show (da ++ db).count ('?') = da.count ('?') + db.count ('?')
      exact List.count_append ('?') da db

/-- Quoting an identifier adds no placeholder characters. -/
lemma countQ_quoteIdent (s : String) : countQ (quoteIdent s) = countQ s := by
  unfold quoteIdent
  rw [countQ_append, countQ_append]
  have hq : countQ "\"" = 0 := by decide
  rw [hq]
  omega

/-- Folding the `join(', ')` accumulator keeps the count at zero. -/
lemma countQ_joinFold (xs : List String) (acc : String) (hacc : countQ acc = 0)
    (h : ∀ s ∈ xs, countQ s = 0) :
    countQ (xs.foldl (fun acc s => acc ++ ", " ++ s) acc) = 0 := by
  induction xs generalizing acc with
  | nil => simpa using hacc
  | cons y ys ih =>
    refine ih _ ?_ (fun s hs => h s (by simp [hs]))
    rw [countQ_append, countQ_append, hacc, h y (by simp)]
    decide

/-- `join(', ')` of placeholder-free strings is placeholder-free. -/
lemma countQ_joinComma (l : List String) (h : ∀ s ∈ l, countQ s = 0) :
    countQ (joinComma l) = 0 := by
  cases l with
  | nil => rfl
  | cons x xs =>
    exact countQ_joinFold xs x (h x (by simp)) (fun s hs => h s (by simp [hs]))

/-- The CTE column fragment of placeholder-free columns is placeholder-free. -/
lemma countQ_innerColumnList (pcs : List String) (h : ∀ c ∈ pcs, countQ c = 0) :
    countQ (innerColumnList pcs) = 0 := by
  unfold innerColumnList
  split
  · rw [countQ_append]
    rw [countQ_joinComma _ (fun s hs => ?_)]
    · decide
    · obtain ⟨c, hc, rfl⟩ := List.mem_map.mp hs
      rw [countQ_quoteIdent]
      exact h c hc
  · rfl

/-- The `to_json` selection fragment of placeholder-free columns is
placeholder-free. -/
lemma countQ_columnSelection (pcs : List String) (h : ∀ c ∈ pcs, countQ c = 0) :
    countQ (columnSelection pcs) = 0 := by
  unfold columnSelection
  split
  · rw [countQ_append]
    rw [countQ_joinComma _ (fun s hs => ?_)]
    · decide
    · obtain ⟨c, hc, rfl⟩ := List.mem_map.mp hs
      rw [countQ_append, countQ_append, countQ_append, countQ_quoteIdent,
        h c hc]
      decide
  · rfl

/-- The qualified table name of placeholder-free identifiers is
placeholder-free. -/
lemma countQ_fullTableNameOf (config : LayerConfig)
    (hT : countQ config.tableName = 0)
    (hS : ∀ s, config.schema = some s → countQ s = 0) :
    countQ (fullTableNameOf config) = 0 := by
  unfold fullTableNameOf
  split
  · next s hs =>
    rw [countQ_append, countQ_append, countQ_quoteIdent, countQ_quoteIdent,
      hT, hS s hs]
    decide
  · rw [countQ_quoteIdent, hT]

/-- The tolerance literal contains no placeholder characters. -/
lemma countQ_toleranceLiteral (z : ℕ) : countQ (toleranceLiteral z) = 0 := by
  unfold toleranceLiteral
  repeat' split
  all_goals decide

/-- The parameterized template built by `generateTileQuery` carries exactly
the four envelope placeholders when all interpolated identifiers are
placeholder-free. -/
lemma countQ_template (config : LayerConfig) (z : ℕ)
    (hT : countQ config.tableName = 0)
    (hG : countQ config.geometryColumn = 0)
    (hP : ∀ c ∈ config.propertyColumns, countQ c = 0)
    (hS : ∀ s, config.schema = some s → countQ s = 0) :
    countQ (tileQueryTemplate config z) = 4 := by
  rw [tileQueryTemplate_eq]
  unfold tileQueryWithSimplify
  repeat rw [countQ_append]
  rw [countQ_quoteIdent, hG,
    countQ_innerColumnList _ hP, countQ_fullTableNameOf config hT hS,
    countQ_toleranceLiteral, countQ_columnSelection _ hP]
  norm_num [show countQ "\n      WITH filtered AS (\n        SELECT\n          " = 0 from by decide,
    show countQ " as geom\n          " = 0 from by decide,
    show countQ "\n        FROM " = 0 from by decide,
    show countQ "\n        WHERE ST_Intersects(\n          " = 0 from by decide,
    show countQ ",\n          ST_MakeEnvelope(CAST(? AS DOUBLE), CAST(? AS DOUBLE), CAST(? AS DOUBLE), CAST(? AS DOUBLE))\n        )\n      )\n      SELECT\n        ST_AsGeoJSON(\n          ST_SimplifyPreserveTopology(geom, " = 4 from by decide,
    show countQ ")\n        ) AS geojson\n        " = 0 from by decide,
    show countQ "\n      FROM filtered\n    " = 0 from by decide]

/-- Replacing the first `?` with placeholder-free text decrements the
placeholder count. -/
lemma count_replaceFirstQ (l repl : List Char) (hrepl : repl.count ('?') = 0) :
    (replaceFirstQ l repl).count ('?') = l.count ('?') - 1 := by
  induction l with
  | nil => rfl
  | cons c rest ih =>
    by_cases hc : c = '?'
    · subst hc
      simp [replaceFirstQ, List.count_append, hrepl, List.count_cons]
    · simp [replaceFirstQ, hc, ih, List.count_cons]

/-- The substitution loop removes one placeholder per parameter. -/
lemma countQ_inlineParams (q : String) (ps : List String)
    (h : ∀ p ∈ ps, countQ p = 0) :
    countQ (inlineParams q ps) = countQ q - ps.length := by
  induction ps generalizing q with
  | nil => simp [inlineParams]
  | cons p ps ih =>
    have hp : countQ p = 0 := h p (by simp)
    have hps : ∀ x ∈ ps, countQ x = 0 := fun x hx => h x (by simp [hx])
    show countQ (inlineParams (jsReplaceQ q p) ps) = countQ q - (ps.length + 1)
    rw [ih _ hps]
    have hj : countQ (jsReplaceQ q p) = countQ q - 1 :=
      count_replaceFirstQ q.data p.data hp
    rw [hj]
    omega

/-- C1, counterexample: for the layer configuration (table `t`, geometry
column `geom`, no property columns) and tile (0,0,0), the parameterized
template carries four `?` placeholders, yet the query text actually
executed carries none, differs from the template, and contains the minLat
bound inlined as the raw decimal `-85.05112877980659` — the bounds are not
passed as bound parameters. -/
theorem C1_counterexample :
    countQ (tileQueryTemplate sampleConfig 0) = 4 ∧
    countQ (executedTileQuery sampleConfig 0 sampleRendered) = 0 ∧
    executedTileQuery sampleConfig 0 sampleRendered
      ≠ tileQueryTemplate sampleConfig 0 ∧
    containsSubstr (executedTileQuery sampleConfig 0 sampleRendered).data
      ("-85.05112877980659").data = true := by
  refine ⟨?_, ?_, ?_, ?_⟩
  · rw [tileQueryTemplate_eq]
    decide
  · unfold executedTileQuery
    rw [tileQueryTemplate_eq]
    decide
  · unfold executedTileQuery
    rw [tileQueryTemplate_eq]
    decide
  · unfold executedTileQuery
    rw [tileQueryTemplate_eq]
    decide

/-- C1 (amended): `generateTileQuery` builds the query with four `?`
placeholders and the bounds in a separate `params` array, but before
execution each placeholder is replaced by the parameter's decimal text
(`query.replace('?', param.toString())`), so for every layer configuration
whose identifiers are placeholder-free and every tile, the executed query
carries no bound parameters — all four bounds are inlined into the text. -/
theorem C1_bounds_inlined :
    ∀ (config : LayerConfig) (z : ℕ) (rendered : List String),
      countQ config.tableName = 0 →
      countQ config.geometryColumn = 0 →
      (∀ c ∈ config.propertyColumns, countQ c = 0) →
      (∀ s, config.schema = some s → countQ s = 0) →
      rendered.length = 4 →
      (∀ p ∈ rendered, countQ p = 0) →
      countQ (tileQueryTemplate config z) = 4 ∧
      countQ (executedTileQuery config z rendered) = 0 := by
  intro config z rendered hT hG hP hS hlen hfree
  have htempl := countQ_template config z hT hG hP hS
  refine ⟨htempl, ?_⟩
  unfold executedTileQuery
  rw [countQ_inlineParams _ _ hfree, htempl, hlen]

/-- C1 witness: the amended statement applied at the concrete sample
configuration, tile (0,0,0), and the JavaScript renderings of its bounds. -/
theorem C1_bounds_inlined_witness :
    countQ (executedTileQuery sampleConfig 0 sampleRendered) = 0 :=
  (C1_bounds_inlined sampleConfig 0 sampleRendered (by decide) (by decide)
    (by decide) (fun s hs => Option.noConfusion hs) (by decide) (by decide)).2

/-- `createConnection` has exactly three outcomes: a null connection, a
thrown `db.connect()`, or a fresh connection. -/
lemma createConnection_cases (env : ProtoEnv) :
    createConnection env = Outcome.ok none
      ∨ createConnection env = Outcome.thrown "connect"
      ∨ createConnection env = Outcome.ok (some ()) := by
  unfold createConnection
  cases hdb : env.dbInitialized with
  | false => exact Or.inl rfl
  | true =>
    cases hct : env.connectThrows with
    | false => exact Or.inr (Or.inr (by simp))
    | true => exact Or.inr (Or.inl (by simp))

/-- `createConnection` returns null when the database is uninitialized. -/
lemma createConnection_of_uninitialized (env : ProtoEnv)
    (hdb : env.dbInitialized = false) :
    createConnection env = Outcome.ok none := by
  unfold createConnection
  rw [hdb]
  rfl

/-- When `db.connect()` throws, no connection is ever produced. -/
lemma createConnection_of_throws (env : ProtoEnv)
    (hct : env.connectThrows = true) :
    createConnection env = Outcome.ok none
      ∨ createConnection env = Outcome.thrown "connect" := by
  unfold createConnection
  cases hdb : env.dbInitialized with
  | false => exact Or.inl rfl
  | true => exact Or.inr (by simp [hct])

/-- `fetchTileData` when connection acquisition throws. -/
lemma fetchTileData_thrown (env : ProtoEnv) (m : String)
    (hc : createConnection env = Outcome.thrown m) :
    fetchTileData env = ([], ⟨0, 0⟩) := by
  unfold fetchTileData
  rw [hc]

/-- `fetchTileData` when `createConnection` returns null. -/
lemma fetchTileData_null (env : ProtoEnv)
    (hc : createConnection env = Outcome.ok none) :
    fetchTileData env = ([], ⟨0, 0⟩) := by
  unfold fetchTileData
  rw [hc]

/-- `fetchTileData` when the tile query throws: caught, empty features,
connection closed in the `finally`. -/
lemma fetchTileData_queryFails (env : ProtoEnv)
    (hc : createConnection env = Outcome.ok (some ()))
    (hq : env.queryFails = true) :
    fetchTileData env = ([], ⟨1, 1⟩) := by
  unfold fetchTileData
  rw [hc]
  simp [hq]

/-- `fetchTileData` on the success path: the parse loop keeps rows whose
geometry parses; connection closed in the `finally`. -/
lemma fetchTileData_ok (env : ProtoEnv)
    (hc : createConnection env = Outcome.ok (some ()))
    (hq : env.queryFails = false) :
    fetchTileData env = (env.rows.filter (fun b => b), ⟨1, 1⟩) := by
  unfold fetchTileData
  rw [hc]
  simp [hq]

/-- The GeoJSON handler on a malformed URL. -/
lemma handlerGeo_parse_none (env : ProtoEnv) (url : String)
    (hp : parseTileURL url = none) :
    duckdbProtocolHandlerGeoJSON env url = (Outcome.ok [], ⟨0, 0⟩) := by
  unfold duckdbProtocolHandlerGeoJSON
  rw [hp]

/-- The GeoJSON handler on an unknown layer id. -/
lemma handlerGeo_lookup_none (env : ProtoEnv) (url cid : String) (z x y : ℕ)
    (hp : parseTileURL url = some (cid, z, x, y))
    (hl : lookupConfig env.configs cid = none) :
    duckdbProtocolHandlerGeoJSON env url = (Outcome.ok [], ⟨0, 0⟩) := by
  unfold duckdbProtocolHandlerGeoJSON
  rw [hp]
  simp [hl]

/-- The GeoJSON handler when URL and config resolve. -/
lemma handlerGeo_some (env : ProtoEnv) (url cid : String) (z x y : ℕ)
    (cfg : LayerConfig)
    (hp : parseTileURL url = some (cid, z, x, y))
    (hl : lookupConfig env.configs cid = some cfg) :
    duckdbProtocolHandlerGeoJSON env url
      = (Outcome.ok (geojsonToVectorTileRun env (fetchTileData env).1),
          (fetchTileData env).2) := by
  unfold duckdbProtocolHandlerGeoJSON
  rw [hp]
  simp [hl]

/-- The dual handler on a malformed URL. -/
lemma handlerDual_parse_none (env : ProtoEnv) (url : String)
    (hp : parseTileURL url = none) :
    duckdbProtocolHandlerDual env url = (Outcome.ok [], ⟨0, 0⟩) := by
  unfold duckdbProtocolHandlerDual
  rw [hp]

/-- The dual handler on an unknown layer id. -/
lemma handlerDual_lookup_none (env : ProtoEnv) (url cid : String) (z x y : ℕ)
    (hp : parseTileURL url = some (cid, z, x, y))
    (hl : lookupConfig env.configs cid = none) :
    duckdbProtocolHandlerDual env url = (Outcome.ok [], ⟨0, 0⟩) := by
  unfold duckdbProtocolHandlerDual
  rw [hp]
  simp [hl]

/-- The dual handler when `db.connect()` throws: the `finally` has nothing
to close and the outer catch returns the empty payload. -/
lemma handlerDual_conn_thrown (env : ProtoEnv) (url cid : String) (z x y : ℕ)
    (cfg : LayerConfig) (m : String)
    (hp : parseTileURL url = some (cid, z, x, y))
    (hl : lookupConfig env.configs cid = some cfg)
    (hc : createConnection env = Outcome.thrown m) :
    duckdbProtocolHandlerDual env url = (Outcome.ok [], ⟨0, 0⟩) := by
  unfold duckdbProtocolHandlerDual
  rw [hp]
  simp [hl, hc]

/-- The dual handler when `createConnection` returns null. -/
lemma handlerDual_conn_null (env : ProtoEnv) (url cid : String) (z x y : ℕ)
    (cfg : LayerConfig)
    (hp : parseTileURL url = some (cid, z, x, y))
    (hl : lookupConfig env.configs cid = some cfg)
    (hc : createConnection env = Outcome.ok none) :
    duckdbProtocolHandlerDual env url = (Outcome.ok [], ⟨0, 0⟩) := by
  unfold duckdbProtocolHandlerDual
  rw [hp]
  simp [hl, hc]

/-- The dual handler when a connection is acquired: dispatch on the
strategy flag and close the connection in the `finally`. -/
lemma handlerDual_conn_some (env : ProtoEnv) (url cid : String) (z x y : ℕ)
    (cfg : LayerConfig)
    (hp : parseTileURL url = some (cid, z, x, y))
    (hl : lookupConfig env.configs cid = some cfg)
    (hc : createConnection env = Outcome.ok (some ())) :
    duckdbProtocolHandlerDual env url
      = (Outcome.ok (if env.useNativeMVT then generateMVTNativeRun env
          else generateMVTFromGeoJSONRun env), ⟨1, 1⟩) := by
  unfold duckdbProtocolHandlerDual
  rw [hp]
  simp [hl, hc]

/-- C6: both registered `duckdb://` protocol handlers always return an
`ok` byte payload — no exception ever reaches the rendering client — and
every failure mode (malformed URL, unknown layer id, uninitialized
database, connection failure, query error, encoding error) yields the
zero-length payload. -/
theorem C6_protocol_never_throws :
    ∀ (env : ProtoEnv) (url : String),
      (∃ b, (duckdbProtocolHandlerGeoJSON env url).1 = Outcome.ok b) ∧
      (∃ b, (duckdbProtocolHandlerDual env url).1 = Outcome.ok b) ∧
      (parseTileURL url = none →
        (duckdbProtocolHandlerGeoJSON env url).1 = Outcome.ok [] ∧
        (duckdbProtocolHandlerDual env url).1 = Outcome.ok []) ∧
      (∀ cid z x y, parseTileURL url = some (cid, z, x, y) →
        lookupConfig env.configs cid = none →
        (duckdbProtocolHandlerGeoJSON env url).1 = Outcome.ok [] ∧
        (duckdbProtocolHandlerDual env url).1 = Outcome.ok []) ∧
      (env.dbInitialized = false →
        (duckdbProtocolHandlerGeoJSON env url).1 = Outcome.ok [] ∧
        (duckdbProtocolHandlerDual env url).1 = Outcome.ok []) ∧
      (env.connectThrows = true →
        (duckdbProtocolHandlerGeoJSON env url).1 = Outcome.ok [] ∧
        (duckdbProtocolHandlerDual env url).1 = Outcome.ok []) ∧
      (env.queryFails = true →
        (duckdbProtocolHandlerGeoJSON env url).1 = Outcome.ok [] ∧
        (duckdbProtocolHandlerDual env url).1 = Outcome.ok []) ∧
      (env.encodeThrows = true →
        (duckdbProtocolHandlerGeoJSON env url).1 = Outcome.ok [] ∧
        (env.useNativeMVT = false →
          (duckdbProtocolHandlerDual env url).1 = Outcome.ok [])) := by
  intro env url
  cases hp : parseTileURL url with
  | none =>
    rw [handlerGeo_parse_none env url hp, handlerDual_parse_none env url hp]
    refine ⟨⟨[], rfl⟩, ⟨[], rfl⟩, fun _ => ⟨rfl, rfl⟩,
      fun cid z x y hsome _ => absurd hsome (by simp),
      fun _ => ⟨rfl, rfl⟩, fun _ => ⟨rfl, rfl⟩, fun _ => ⟨rfl, rfl⟩,
      fun _ => ⟨rfl, fun _ => rfl⟩⟩
  | some v =>
    obtain ⟨cid, z, x, y⟩ := v
    cases hl : lookupConfig env.configs cid with
    | none =>
      rw [handlerGeo_lookup_none env url cid z x y hp hl,
        handlerDual_lookup_none env url cid z x y hp hl]
      refine ⟨⟨[], rfl⟩, ⟨[], rfl⟩,
        fun hnone => absurd hnone (by simp),
        fun _ _ _ _ _ _ => ⟨rfl, rfl⟩,
        fun _ => ⟨rfl, rfl⟩, fun _ => ⟨rfl, rfl⟩, fun _ => ⟨rfl, rfl⟩,
        fun _ => ⟨rfl, fun _ => rfl⟩⟩
    | some cfg =>
      rw [handlerGeo_some env url cid z x y cfg hp hl]
      have hgeo_empty : ∀ tr : ConnTrace,
          (Outcome.ok (geojsonToVectorTileRun env ([], tr).1)
            : Outcome (List ℕ)) = Outcome.ok [] := fun _ => rfl
      refine ⟨?_, ?_, fun hnone => absurd hnone (by simp),
        ?_, ?_, ?_, ?_, ?_⟩
      · exact ⟨_, rfl⟩
      · rcases createConnection_cases env with hc | hc | hc
        · rw [handlerDual_conn_null env url cid z x y cfg hp hl hc]
          exact ⟨[], rfl⟩
        · rw [handlerDual_conn_thrown env url cid z x y cfg "connect" hp hl hc]
          exact ⟨[], rfl⟩
        · rw [handlerDual_conn_some env url cid z x y cfg hp hl hc]
          exact ⟨_, rfl⟩
      · intro cid' z' x' y' hsome hlook
        obtain ⟨rfl, rfl, rfl, rfl⟩ :
            cid = cid' ∧ z = z' ∧ x = x' ∧ y = y' := by
          simpa [Prod.ext_iff] using hsome
        rw [hl] at hlook
        exact absurd hlook (by simp)
      · intro hdb
        have hc := createConnection_of_uninitialized env hdb
        rw [fetchTileData_null env hc,
          handlerDual_conn_null env url cid z x y cfg hp hl hc]
        exact ⟨rfl, rfl⟩
      · intro hct
        rcases createConnection_of_throws env hct with hc | hc
        · rw [fetchTileData_null env hc,
            handlerDual_conn_null env url cid z x y cfg hp hl hc]
          exact ⟨rfl, rfl⟩
        · rw [fetchTileData_thrown env "connect" hc,
            handlerDual_conn_thrown env url cid z x y cfg "connect" hp hl hc]
          exact ⟨rfl, rfl⟩
      · intro hq
        rcases createConnection_cases env with hc | hc | hc
        · rw [fetchTileData_null env hc,
            handlerDual_conn_null env url cid z x y cfg hp hl hc]
          exact ⟨rfl, rfl⟩
        · rw [fetchTileData_thrown env "connect" hc,
            handlerDual_conn_thrown env url cid z x y cfg "connect" hp hl hc]
          exact ⟨rfl, rfl⟩
        · rw [fetchTileData_queryFails env hc hq,
            handlerDual_conn_some env url cid z x y cfg hp hl hc]
          refine ⟨rfl, ?_⟩
          simp [generateMVTNativeRun, generateMVTFromGeoJSONRun, hq]
      · intro he
        constructor
        · rcases createConnection_cases env with hc | hc | hc
          · rw [fetchTileData_null env hc]
            exact rfl
          · rw [fetchTileData_thrown env "connect" hc]
            exact rfl
          · cases hq : env.queryFails with
            | true =>
              rw [fetchTileData_queryFails env hc hq]
              exact rfl
            | false =>
              rw [fetchTileData_ok env hc hq]
              simp [geojsonToVectorTileRun, he]
        · intro hnn
          rcases createConnection_cases env with hc | hc | hc
          · rw [handlerDual_conn_null env url cid z x y cfg hp hl hc]
          · rw [handlerDual_conn_thrown env url cid z x y cfg "connect" hp hl hc]
          · rw [handlerDual_conn_some env url cid z x y cfg hp hl hc]
            simp [hnn, generateMVTFromGeoJSONRun, geojsonToVectorTileRun, he]

/-- C6 witness: a malformed URL and an unknown layer id each produce the
zero-length `ok` payload from both handlers. -/
theorem C6_protocol_never_throws_witness :
    ((duckdbProtocolHandlerGeoJSON sampleEnv "http://x").1 = Outcome.ok [] ∧
      (duckdbProtocolHandlerDual sampleEnv "http://x").1 = Outcome.ok []) ∧
    ((duckdbProtocolHandlerGeoJSON sampleEnv "duckdb://b/0/0/0.pbf").1
        = Outcome.ok [] ∧
      (duckdbProtocolHandlerDual sampleEnv "duckdb://b/0/0/0.pbf").1
        = Outcome.ok []) :=
  ⟨(C6_protocol_never_throws sampleEnv "http://x").2.2.1 (by decide),
    (C6_protocol_never_throws sampleEnv "duckdb://b/0/0/0.pbf").2.2.2.1
      "b" 0 0 0 (by decide) (by decide)⟩

/-- C7: on every execution path of both protocol handlers — including the
paths interrupted by connection failures, query errors, and encoding
errors — every acquired connection is closed before the request completes
(the close count of the run equals its acquire count), and likewise for
the scoped connection inside `fetchTileData`. -/
theorem C7_connection_always_released :
    ∀ (env : ProtoEnv) (url : String),
      ((duckdbProtocolHandlerGeoJSON env url).2.closed
        = (duckdbProtocolHandlerGeoJSON env url).2.acquired) ∧
      ((duckdbProtocolHandlerDual env url).2.closed
        = (duckdbProtocolHandlerDual env url).2.acquired) ∧
      ((fetchTileData env).2.closed = (fetchTileData env).2.acquired) := by
  intro env url
  have hf : (fetchTileData env).2.closed = (fetchTileData env).2.acquired := by
    rcases createConnection_cases env with hc | hc | hc
    · rw [fetchTileData_null env hc]
    · rw [fetchTileData_thrown env "connect" hc]
    · cases hq : env.queryFails with
      | true => rw [fetchTileData_queryFails env hc hq]
      | false => rw [fetchTileData_ok env hc hq]
  refine ⟨?_, ?_, hf⟩
  · cases hp : parseTileURL url with
    | none => rw [handlerGeo_parse_none env url hp]
    | some v =>
      obtain ⟨cid, z, x, y⟩ := v
      cases hl : lookupConfig env.configs cid with
      | none => rw [handlerGeo_lookup_none env url cid z x y hp hl]
      | some cfg =>
        rw [handlerGeo_some env url cid z x y cfg hp hl]
        exact hf
  · cases hp : parseTileURL url with
    | none => rw [handlerDual_parse_none env url hp]
    | some v =>
      obtain ⟨cid, z, x, y⟩ := v
      cases hl : lookupConfig env.configs cid with
      | none => rw [handlerDual_lookup_none env url cid z x y hp hl]
      | some cfg =>
        rcases createConnection_cases env with hc | hc | hc
        · rw [handlerDual_conn_null env url cid z x y cfg hp hl hc]
        · rw [handlerDual_conn_thrown env url cid z x y cfg "connect" hp hl hc]
        · rw [handlerDual_conn_some env url cid z x y cfg hp hl hc]

/-! ## Numeric facts for the envelope latitude bound

The Web-Mercator latitude limit is `atan(sinh π) · 180/π ≈ 85.05113°`; the
chain below establishes `arctan (sinh π) < 85.06·π/180` from rational
bounds on `e` and `π`. -/

/-- Taylor bound: `exp 0.141593 < 1.1522`. -/
lemma exp_pt_lt : Real.exp 0.141593 < 1.1522 := by
  have h := Real.exp_bound' (x := 0.141593) (by norm_num) (by norm_num)
    (n := 4) (by norm_num)
  refine lt_of_le_of_lt h ?_
  norm_num [Finset.sum_range_succ, Finset.sum_range_zero, Nat.factorial]

/-- `exp π < 23.148`. -/
lemma exp_pi_lt : Real.exp Real.pi < 23.148 := by
  have hE := Real.exp_one_lt_d9
  have hF := exp_pt_lt
  calc Real.exp Real.pi < Real.exp 3.141593 :=
        Real.exp_lt_exp.mpr Real.pi_lt_d6
    _ = Real.exp 1 * Real.exp 1 * Real.exp 1 * Real.exp 0.141593 := by
        rw [← Real.exp_add, ← Real.exp_add, ← Real.exp_add]
        norm_num
    _ ≤ 2.7182818286 * 2.7182818286 * 2.7182818286 * 1.1522 := by gcongr
    _ < 23.148 := by norm_num

/-- `sinh π < 11.5524`. -/
lemma sinh_pi_lt : Real.sinh Real.pi < 11.5524 := by
  rw [Real.sinh_eq]
  have h1 := exp_pi_lt
  have h2 : (1:ℝ)/23.148 < Real.exp (-Real.pi) := by
    rw [Real.exp_neg]
    rw [show (1:ℝ)/23.148 = (23.148:ℝ)⁻¹ by norm_num]
    exact inv_strictAnti₀ (Real.exp_pos _) h1
  calc (Real.exp Real.pi - Real.exp (-Real.pi)) / 2
      < (23.148 - 1/23.148) / 2 := by linarith
    _ < 11.5524 := by norm_num

/-- The Mercator latitude limit in radians is below `85.06·π/180`. -/
lemma arctan_sinh_pi_lt :
    Real.arctan (Real.sinh Real.pi) < 85.06 * Real.pi / 180 := by
  have hpi := Real.pi_pos
  have hpiu : Real.pi < 3.141593 := Real.pi_lt_d6
  have hd_eq : (85.06 : ℝ) * Real.pi / 180 = Real.pi/2 - 247/9000 * Real.pi := by
    ring_nf
  have hd_pos : (0:ℝ) < 247/9000 * Real.pi := by positivity
  have hd_lt_pi : (247:ℝ)/9000 * Real.pi < Real.pi := by nlinarith
  have hsin : Real.sin (247/9000 * Real.pi) < 247/9000 * Real.pi :=
    Real.sin_lt hd_pos
  have hsin_pos : 0 < Real.sin (247/9000 * Real.pi) :=
    Real.sin_pos_of_pos_of_lt_pi hd_pos hd_lt_pi
  have hcos : 1 - (247/9000 * Real.pi)^2/2 ≤ Real.cos (247/9000 * Real.pi) :=
    Real.one_sub_sq_div_two_le_cos
  have hsinh_pos : 0 < Real.sinh Real.pi := by
    have h := Real.sinh_lt_sinh.mpr hpi
    simpa using h
  have hsinh := sinh_pi_lt
  have hkey : Real.sinh Real.pi * Real.sin (247/9000 * Real.pi)
      < Real.cos (247/9000 * Real.pi) := by
    have h1 : Real.sinh Real.pi * Real.sin (247/9000 * Real.pi)
        < 11.5524 * (247/9000 * Real.pi) :=
      mul_lt_mul'' hsinh hsin hsinh_pos.le hsin_pos.le
    have hsq : (247/9000 * Real.pi)^2 < (247/9000 * 3.141593)^2 := by
      gcongr
    have hnum : (11.5524:ℝ) * (247/9000 * 3.141593)
        + (247/9000 * 3.141593)^2/2 < 1 := by norm_num
    nlinarith
  have htan : Real.sinh Real.pi < Real.tan (Real.pi/2 - 247/9000 * Real.pi) := by
    rw [Real.tan_eq_sin_div_cos, Real.sin_pi_div_two_sub, Real.cos_pi_div_two_sub]
    rw [lt_div_iff₀ hsin_pos]
    exact hkey
  have harc := Real.arctan_strictMono htan
  rw [Real.arctan_tan (by nlinarith) (by nlinarith)] at harc
  rw [hd_eq]
  exact harc

/-- Latitude upper bound for `t ≤ 1`. -/
lemma arctan_sinh_le_of_le (t : ℝ) (ht : t ≤ 1) :
    Real.arctan (Real.sinh (Real.pi * t)) < 85.06 * Real.pi / 180 := by
  have hpi := Real.pi_pos
  have h1 : Real.pi * t ≤ Real.pi := by nlinarith
  have h2 : Real.sinh (Real.pi * t) ≤ Real.sinh Real.pi :=
    Real.sinh_le_sinh.mpr h1
  exact lt_of_le_of_lt (Real.arctan_strictMono.monotone h2) arctan_sinh_pi_lt

/-- Latitude lower bound for `-1 ≤ t`. -/
lemma arctan_sinh_gt_of_ge (t : ℝ) (ht : -1 ≤ t) :
    -(85.06 * Real.pi / 180) < Real.arctan (Real.sinh (Real.pi * t)) := by
  have hpi := Real.pi_pos
  have h1 : -Real.pi ≤ Real.pi * t := by nlinarith
  have h2 : Real.sinh (-Real.pi) ≤ Real.sinh (Real.pi * t) :=
    Real.sinh_le_sinh.mpr h1
  have h3 := Real.arctan_strictMono.monotone h2
  rw [Real.sinh_neg, Real.arctan_neg] at h3
  have h4 := arctan_sinh_pi_lt
  linarith

/-- Conversion to degrees preserves the upper bound. -/
lemma deg_lt_8506 (a : ℝ) (h : a < 85.06 * Real.pi / 180) :
    a * (180 / Real.pi) < 85.06 := by
  have hpi := Real.pi_pos
  have h2 : a * 180 < 85.06 * Real.pi := by nlinarith
  have h3 : a * (180 / Real.pi) = a * 180 / Real.pi := by ring
  rw [h3, div_lt_iff₀ hpi]
  linarith

/-- Conversion to degrees preserves the lower bound. -/
lemma deg_gt_neg8506 (a : ℝ) (h : -(85.06 * Real.pi / 180) < a) :
    -(85.06:ℝ) < a * (180 / Real.pi) := by
  have hpi := Real.pi_pos
  have h2 : -(85.06 * Real.pi) < a * 180 := by nlinarith
  have h3 : a * (180 / Real.pi) = a * 180 / Real.pi := by ring
  rw [h3, lt_div_iff₀ hpi]
  linarith

/-- The projected latitude (in degrees) is strictly increasing in `t`. -/
lemma lat_strict (t1 t2 : ℝ) (h : t1 < t2) :
    Real.arctan (Real.sinh (Real.pi * t1)) * (180 / Real.pi)
      < Real.arctan (Real.sinh (Real.pi * t2)) * (180 / Real.pi) := by
  have hpi := Real.pi_pos
  have h1 : Real.pi * t1 < Real.pi * t2 := by nlinarith
  have h2 : Real.sinh (Real.pi * t1) < Real.sinh (Real.pi * t2) :=
    Real.sinh_lt_sinh.mpr h1
  have hpos : 0 < (180:ℝ)/Real.pi := by positivity
  exact mul_lt_mul_of_pos_right (Real.arctan_strictMono h2) hpos

set_option maxHeartbeats 1000000 in
/-- C4: for every zoom z in [0,22] and tile indices x, y < 2^z, both
implementations of `getTileEnvelope` (src/mvt.ts and
src/tile-generation-geojson.ts) return bounds with minLng < maxLng and
minLat < maxLat, longitudes within [-180, 180], and latitudes strictly
within (-85.06, 85.06). -/
theorem C4_tile_envelope_well_formed :
    ∀ (z x y : ℕ), z ≤ 22 → x < 2^z → y < 2^z →
      boundsWellFormed (getTileEnvelope z x y) ∧
      boundsWellFormed (getTileEnvelopeGeoJSON z x y) := by
  intro z x y hz hx hy
  have hpi := Real.pi_pos
  have hn : (0:ℝ) < 2^z := by positivity
  have hinv : (0:ℝ) < 1/2^z := by positivity
  have hinvn : (1/(2:ℝ)^z) * 2^z = 1 := by field_simp
  have hxr : ((x:ℝ) + 1) ≤ 2^z := by
    have h1 : (x + 1 : ℕ) ≤ 2^z := hx
    have h2 : ((x+1 : ℕ) : ℝ) ≤ ((2^z : ℕ) : ℝ) := Nat.cast_le.mpr h1
    push_cast at h2
    linarith
  have hyr : ((y:ℝ) + 1) ≤ 2^z := by
    have h1 : (y + 1 : ℕ) ≤ 2^z := hy
    have h2 : ((y+1 : ℕ) : ℝ) ≤ ((2^z : ℕ) : ℝ) := Nat.cast_le.mpr h1
    push_cast at h2
    linarith
  have hx0 : (0:ℝ) ≤ x := Nat.cast_nonneg x
  have hy0 : (0:ℝ) ≤ y := Nat.cast_nonneg y
  have hconv : ∀ a : ℝ, a * 180 / Real.pi = a * (180 / Real.pi) :=
    fun a => by ring
  constructor
  · have hy2lt : (1 - 2 * ((y:ℝ)+1) * (1/2^z)) < 1 - 2 * (y:ℝ) * (1/2^z) := by
      nlinarith
    have hy1le : 1 - 2 * (y:ℝ) * (1/2^z) ≤ 1 := by
      nlinarith [mul_nonneg hy0 hinv.le]
    have hy2ge : -1 ≤ 1 - 2 * ((y:ℝ)+1) * (1/2^z) := by
      nlinarith [hyr, hinv, hinvn]
    unfold getTileEnvelope boundsWellFormed
    dsimp only
    have hsn := lat_strict _ _ hy2lt
    rw [min_eq_right hsn.le, max_eq_left hsn.le]
    refine ⟨?_, hsn, ?_, ?_, ?_, ?_⟩
    · nlinarith
    · nlinarith [mul_nonneg hx0 hinv.le]
    · nlinarith [hxr, hinv, hinvn]
    · exact deg_gt_neg8506 _ (arctan_sinh_gt_of_ge _ hy2ge)
    · exact deg_lt_8506 _ (arctan_sinh_le_of_le _ hy1le)
  · have hy2lt : (1 - 2 * ((y:ℝ)+1) / 2^z) < 1 - 2 * (y:ℝ) / 2^z := by
      have h1 : 2 * ((y:ℝ)+1) / 2^z - 2 * (y:ℝ) / 2^z = 2 * (1/2^z) := by
        field_simp
        ring
      nlinarith [hinv]
    have hy1le : 1 - 2 * (y:ℝ) / 2^z ≤ 1 := by
      have : (0:ℝ) ≤ 2 * (y:ℝ) / 2^z := by positivity
      linarith
    have hy2ge : -1 ≤ 1 - 2 * ((y:ℝ)+1) / 2^z := by
      have h1 : 2 * ((y:ℝ)+1) / 2^z ≤ 2 := by
        rw [div_le_iff₀ hn]
        nlinarith
      linarith
    unfold getTileEnvelopeGeoJSON boundsWellFormed
    dsimp only
    rw [hconv, hconv]
    have hsn := lat_strict _ _ hy2lt
    refine ⟨?_, hsn, ?_, ?_, ?_, ?_⟩
    · have h1 : ((x:ℝ)+1) / 2^z - (x:ℝ) / 2^z = 1/2^z := by
        field_simp
      nlinarith [hinv]
    · have h1 : (0:ℝ) ≤ (x:ℝ) / 2^z := by positivity
      nlinarith
    · have h1 : ((x:ℝ)+1) / 2^z ≤ 1 := by
        rw [div_le_one hn]
        exact hxr
      have h2 := mul_le_mul_of_nonneg_right h1 (by norm_num : (0:ℝ) ≤ 360)
      linarith
    · exact deg_gt_neg8506 _ (arctan_sinh_gt_of_ge _ hy2ge)
    · exact deg_lt_8506 _ (arctan_sinh_le_of_le _ hy1le)

/-- C4 witness: the bounds at the concrete tile (10, 910, 403). -/
theorem C4_tile_envelope_well_formed_witness :
    boundsWellFormed (getTileEnvelope 10 910 403) ∧
    boundsWellFormed (getTileEnvelopeGeoJSON 10 910 403) :=
  C4_tile_envelope_well_formed 10 910 403 (by norm_num) (by norm_num)
    (by norm_num)

end DuckDBWasmMVT
